import Mathlib

/-!
Shallow embedding of `src/server.js` (an Automerge full-state synchronization
relay over WebSocket, with a JSON snapshot file and a small HTTP front).

The external Automerge 0.14 library (`save`, `load`, `merge`, `from`) and the
platform's `JSON.parse` / `JSON.stringify`-of-a-document are out of scope per
the specification ("replaceable CRDT-merge module"); they appear as fields of
an `Env` record over an opaque document type `Doc`.  `qText`, the source's
optional-chain projection `d?.pages?.[0]?.questionRows?.[0]?.elements?.[0]?.questionText`
over the opaque Automerge document, is likewise a field of `Env`: it reads the
internal representation of an external `Doc`, which the embedding does not open.

Effects (socket sends, snapshot-file writes) are modelled as an ordered event
list produced by each handler; fallible effects take explicit success flags
(`sendOk` per connection, `writeOk` per write), mirroring the source's
`try`/`catch` placement exactly.
-/

namespace AutomergeRelay

/-- Minimal JSON value model, used for the literal objects the source builds
(`JSON.stringify({...})` wire messages and the empty seed document shape). -/
inductive Js where
  | str : String → Js
  | num : Int → Js
  | arr : List Js → Js
  | obj : List (String × Js) → Js

/-- WebSocket `readyState` values. -/
inductive RState where
  | OPEN
  | CONNECTING
  | CLOSING
  | CLOSED
deriving DecidableEq, Repr

/-- One client connection (`ws` / an element of `wss.clients`): its id, its
`readyState`, and whether a `send` on it succeeds (throws when `false`). -/
structure Conn where
  id : Nat
  readyState : RState
  sendOk : Bool
deriving DecidableEq, Repr

/-- Outbound wire messages the server constructs (`JSON.stringify` literals in
the source): `full`, `persisted`, `ping`, `debug_echo`. -/
inductive OutMsg where
  | full (payload : String)
  | persisted (at_ : String) (questionText : String)
  | ping (t : Int)
  | debug_echo (bytes : Nat)
deriving DecidableEq, Repr

/-- Observable effects of a handler run, in execution order: a successful
`send` to a connection, a failed (throwing, caught) `send`, a successful
snapshot-file write, a failed (caught) write. -/
inductive Ev where
  | sent (connId : Nat) (m : OutMsg)
  | sendFailed (connId : Nat)
  | wrote (content : String)
  | writeFailed
deriving DecidableEq, Repr

/-- The external collaborators of the server, over an opaque document type:
the Automerge 0.14 module (`save`, `load`, `merge`, `from` = `fromSeed`), the
platform JSON functions applied to documents, and the source's `qText`
projection of a document. -/
structure Env (Doc : Type) where
  save : Doc → String
  load : String → Option Doc
  merge : Doc → Doc → Doc
  fromSeed : Js → Doc
  parseJson : String → Option Js
  stringifyDoc : Doc → String
  qText : Doc → String

/-- Server state: the in-memory document `doc` and the snapshot file content
(`none` = `manifest.json` absent). -/
structure SState (Doc : Type) where
  doc : Doc
  file : Option String
deriving DecidableEq, Repr

/-- Result of destructuring `const { type, payload } = msg || {}` on a parsed
inbound JSON message: either field may be absent (or, for `payload`, not a
string — `Automerge.load` then fails). -/
structure WireIn where
  type : Option String
  payload : Option String
deriving DecidableEq, Repr

/-- An inbound frame: its decoded text and the outcome of `JSON.parse` plus
destructuring (`none` when `JSON.parse` throws). -/
structure Frame where
  text : String
  parse : Option WireIn
deriving DecidableEq, Repr

/-- `persistJson()`: `fs.writeFileSync(SNAPSHOT_JSON, JSON.stringify(doc, null, 2))`
inside `try`/`catch`; a write error is logged and the file is left as it was. -/
def persistJson {Doc : Type} (env : Env Doc) (doc : Doc) (file : Option String)
    (writeOk : Bool) : Option String × List Ev :=
  if writeOk then
    (some (env.stringifyDoc doc), [Ev.wrote (env.stringifyDoc doc)])
  else
    (file, [Ev.writeFailed])

/-- The fixed empty-shape seed document of `loadInitial`:
`{ pages: [], tiles: [], merges: [], actions: [], databases: [], connections: [], styles: { theme: \x7b\x7d } }`. -/
def emptySeed : Js :=
  Js.obj [("pages", Js.arr []), ("tiles", Js.arr []), ("merges", Js.arr []),
          ("actions", Js.arr []), ("databases", Js.arr []),
          ("connections", Js.arr []),
          ("styles", Js.obj [("theme", Js.obj [])])]

/-- `loadInitial()`: if the snapshot file exists, `JSON.parse` its content and
build the document with `Automerge.from`; on parse failure, or when the file is
absent, fall back to `Automerge.from` of the fixed empty shape and call
`persistJson()`. -/
def loadInitial {Doc : Type} (env : Env Doc) (file : Option String)
    (writeOk : Bool) : SState Doc × List Ev :=
  match file with
  | some content =>
    match env.parseJson content with
    | some seed => ({ doc := env.fromSeed seed, file := some content }, [])
    | none =>
      let d := env.fromSeed emptySeed
      let pr := persistJson env d (some content) writeOk
      ({ doc := d, file := pr.1 }, pr.2)
  | none =>
    let d := env.fromSeed emptySeed
    let pr := persistJson env d none writeOk
    ({ doc := d, file := pr.1 }, pr.2)

/-- The broadcast loop of the `full` handler:
`wss.clients.forEach(c => { if (c.readyState === WebSocket.OPEN) c.send(outMsg) })`
wrapped in a single `try`/`catch` OUTSIDE the loop — a throwing `send` aborts
the remaining iterations (the exception propagates out of `forEach` into the
outer `catch`). -/
def broadcastSend (m : OutMsg) : List Conn → List Ev
  | [] => []
  | c :: rest =>
    if c.readyState = RState.OPEN then
      if c.sendOk then Ev.sent c.id m :: broadcastSend m rest
      else []
    else broadcastSend m rest

/-- The connections of a client list whose `readyState` is `OPEN`. -/
def openClients (clients : List Conn) : List Conn :=
  clients.filter fun c => c.readyState == RState.OPEN

/-- The `ws.on("message")` handler, translated branch by branch:
1. unconditional `debug_echo` send (own `try`/`catch`);
2. `JSON.parse` — on failure, return;
3. `type === "hello"` — send a `full` with the current saved document, return;
4. `type !== "full"` — ignore, return;
5. `Automerge.load(payload)` — on failure, return;
6. `doc = Automerge.merge(doc, incomingDoc)`; `persistJson()`;
   `persisted` ack to the sender (own `try`/`catch`); broadcast a `full` with
   the post-merge saved document to all `OPEN` clients. -/
def handleMessage {Doc : Type} (env : Env Doc) (st : SState Doc)
    (clients : List Conn) (ws : Conn) (frame : Frame) (now : String)
    (writeOk : Bool) : SState Doc × List Ev :=
  let echoEvs :=
    if ws.sendOk then [Ev.sent ws.id (OutMsg.debug_echo frame.text.length)]
    else [Ev.sendFailed ws.id]
  match frame.parse with
  | none => (st, echoEvs)
  | some msg =>
    if msg.type = some "hello" then
      let helloEvs :=
        if ws.sendOk then [Ev.sent ws.id (OutMsg.full (env.save st.doc))]
        else [Ev.sendFailed ws.id]
      (st, echoEvs ++ helloEvs)
    else if msg.type ≠ some "full" then
      (st, echoEvs)
    else
      match msg.payload.bind env.load with
      | none => (st, echoEvs)
      | some incomingDoc =>
        let doc' := env.merge st.doc incomingDoc
        let pr := persistJson env doc' st.file writeOk
        let ackEvs :=
          if ws.sendOk then
            [Ev.sent ws.id (OutMsg.persisted now (env.qText doc'))]
          else [Ev.sendFailed ws.id]
        let bEvs := broadcastSend (OutMsg.full (env.save doc')) clients
        ({ doc := doc', file := pr.1 }, echoEvs ++ pr.2 ++ ackEvs ++ bEvs)

/-- The JSON object of the `persisted` ack's `payload` field:
`{ at: new Date().toISOString(), questionText: qText(doc) }`. -/
def persistedPayloadJs (at_ qt : String) : Js :=
  Js.obj [("at", Js.str at_), ("questionText", Js.str qt)]

/-- The JSON object each outbound message is stringified from, field for field
as the source writes it. -/
def encodeOut : OutMsg → Js
  | OutMsg.full p => Js.obj [("type", Js.str "full"), ("payload", Js.str p)]
  | OutMsg.persisted a q =>
      Js.obj [("type", Js.str "persisted"), ("payload", persistedPayloadJs a q)]
  | OutMsg.ping t => Js.obj [("type", Js.str "ping"), ("t", Js.num t)]
  | OutMsg.debug_echo n =>
      Js.obj [("type", Js.str "debug_echo"), ("bytes", Js.num (n : Int))]

/-- Keys of a JSON object value (empty for non-objects). -/
def jsObjKeys : Js → List String
  | Js.obj fields => fields.map Prod.fst
  | _ => []

/-- Keys of the `payload` field of an outbound message's JSON object. -/
def msgPayloadKeys (m : OutMsg) : List String :=
  match encodeOut m with
  | Js.obj fields =>
    match fields.lookup "payload" with
    | some v => jsObjKeys v
    | none => []
  | _ => []

/-- An HTTP request as the handler sees it. -/
structure HttpReq where
  method : String
  url : String
deriving DecidableEq, Repr

/-- An HTTP response: status, headers, body. -/
structure HttpResp where
  status : Nat
  headers : List (String × String)
  body : String
deriving DecidableEq, Repr

/-- The no-cache header block of the page response. -/
def noCacheHeaders : List (String × String) :=
  [("Content-Type", "text/html; charset=utf-8"),
   ("Cache-Control", "no-store, no-cache, must-revalidate, proxy-revalidate"),
   ("Pragma", "no-cache"),
   ("Expires", "0")]

/-- `(req.url || "/").split("?")[0]`: the prefix of the (defaulted) url before
the first `?`, here computed on the character list. -/
def pathnameOf (url : String) : String :=
  String.mk ((if url = "" then "/" else url).data.takeWhile (fun c => c ≠ '?'))

/-- The `http.createServer` handler: a pathname of `/` or `/client.html` gets
the page (status 200 with the no-cache headers; a placeholder body when
`client.html` is absent, else the file content with a `Content-Length`);
every other pathname gets `404 Not found` with `Cache-Control: no-store`. -/
def handleHttp (clientHtml : Option String) (req : HttpReq) : HttpResp :=
  let pathname := pathnameOf req.url
  if pathname = "/" ∨ pathname = "/client.html" then
    match clientHtml with
    | none =>
      { status := 200, headers := noCacheHeaders,
        body := "Place client.html next to server.js (server is running)." }
    | some html =>
      { status := 200,
        headers := noCacheHeaders ++ [("Content-Length", toString html.utf8ByteSize)],
        body := html }
  else
    { status := 404, headers := [("Cache-Control", "no-store")], body := "Not found" }

/-- A concrete instantiation of the external collaborators, used to evaluate
the handler on concrete inputs: documents are naturals, serialization is
decimal notation, merge is `max` (commutative, associative, idempotent). -/
def testEnv : Env Nat where
  save := fun n => toString n
  load := fun s => if s = "7" then some 7 else none
  merge := Nat.max
  fromSeed := fun _ => 0
  parseJson := fun _ => none
  stringifyDoc := fun n => toString n
  qText := fun n => toString n

/-- A concrete open connection whose sends succeed. -/
def testConn : Conn := { id := 1, readyState := RState.OPEN, sendOk := true }

/-- A concrete inbound frame carrying a well-formed `full` message whose
payload deserializes under `testEnv`. -/
def fullFrame : Frame :=
  { text := "x", parse := some { type := some "full", payload := some "7" } }

/-- A concrete inbound frame that is not well-formed JSON. -/
def badFrame : Frame := { text := "notjson", parse := none }

/-- A concrete `full` frame whose payload fails to deserialize under
`testEnv`. -/
def badFullFrame : Frame :=
  { text := "y", parse := some { type := some "full", payload := some "nope" } }

/-- A concrete `hello` frame. -/
def helloFrame : Frame :=
  { text := "z", parse := some { type := some "hello", payload := none } }

/-- Every event the broadcast loop emits is a successful send of the broadcast
message itself. -/
theorem broadcastSend_ev {m : OutMsg} {ev : Ev} :
    ∀ {clients : List Conn}, ev ∈ broadcastSend m clients →
      ∃ cid, ev = Ev.sent cid m := by
  intro clients
  induction clients with
  | nil => intro h; simp [broadcastSend] at h
  | cons c rest ih =>
    intro h
    by_cases hc : c.readyState = RState.OPEN
    · by_cases hs : c.sendOk = true
      · rw [broadcastSend, if_pos hc, if_pos hs] at h
        rcases List.mem_cons.mp h with h | h
        · exact ⟨c.id, h⟩
        · exact ih h
      · rw [broadcastSend, if_pos hc, if_neg hs] at h
        simp at h
    · rw [broadcastSend, if_neg hc] at h
      exact ih h

/-- When every open connection's send succeeds, the broadcast loop delivers
the message to exactly the open connections, in order, skipping closed ones. -/
theorem broadcastSend_all_ok (m : OutMsg) :
    ∀ clients : List Conn,
      (∀ c ∈ clients, c.readyState = RState.OPEN → c.sendOk = true) →
      broadcastSend m clients =
        (openClients clients).map (fun c => Ev.sent c.id m) := by
  intro clients
  induction clients with
  | nil => intro _; simp [broadcastSend, openClients]
  | cons c rest ih =>
    intro hall
    have hrest : ∀ x ∈ rest, x.readyState = RState.OPEN → x.sendOk = true :=
      fun x hx => hall x (List.mem_cons_of_mem c hx)
    by_cases hc : c.readyState = RState.OPEN
    · have hs : c.sendOk = true := hall c (List.mem_cons_self c rest) hc
      rw [broadcastSend, if_pos hc, if_pos hs, ih hrest]
      simp [openClients, List.filter_cons, hc]
    · rw [broadcastSend, if_neg hc, ih hrest]
      simp [openClients, List.filter_cons, hc]

/-- A throwing send on an open connection aborts the loop: only the open
connections before it receive the message; everything after receives
nothing (the exception is caught outside the `forEach`, so nothing is raised
to the caller). -/
theorem broadcastSend_abort (m : OutMsg) (c : Conn) (post : List Conn)
    (hc : c.readyState = RState.OPEN) (hs : c.sendOk = false) :
    ∀ pre : List Conn,
      (∀ x ∈ pre, x.readyState = RState.OPEN → x.sendOk = true) →
      broadcastSend m (pre ++ c :: post) =
        (openClients pre).map (fun x => Ev.sent x.id m) := by
  intro pre
  induction pre with
  | nil =>
    intro _
    rw [List.nil_append, broadcastSend, if_pos hc]
    simp [hs, openClients]
  | cons x rest ih =>
    intro hall
    have hrest : ∀ y ∈ rest, y.readyState = RState.OPEN → y.sendOk = true :=
      fun y hy => hall y (List.mem_cons_of_mem x hy)
    by_cases hx : x.readyState = RState.OPEN
    · have hxs : x.sendOk = true := hall x (List.mem_cons_self x rest) hx
      rw [List.cons_append, broadcastSend, if_pos hx, if_pos hxs, ih hrest]
      simp [openClients, List.filter_cons, hx]
    · rw [List.cons_append, broadcastSend, if_neg hx, ih hrest]
      simp [openClients, List.filter_cons, hx]

/-- C1: for every successfully deserialized incoming `full` message, the
handler merges into the current document, persists, sends exactly one
`persisted` acknowledgment to the originating connection only, and then
broadcasts exactly one `full` message containing the post-merge serialized
document to every currently open connection including the sender; the
acknowledgment precedes the broadcast (the event list is exactly
echo, write, ack-to-sender, then one `full` per open connection). -/
theorem full_merge_persist_ack_broadcast {Doc : Type} (env : Env Doc)
    (st : SState Doc) (clients : List Conn) (ws : Conn) (frame : Frame)
    (now : String) (msg : WireIn) (p : String) (inc : Doc)
    (hparse : frame.parse = some msg) (htype : msg.type = some "full")
    (hpay : msg.payload = some p) (hload : env.load p = some inc)
    (hws : ws.sendOk = true)
    (hall : ∀ c ∈ clients, c.readyState = RState.OPEN → c.sendOk = true)
    (hmem : ws ∈ clients) (hopen : ws.readyState = RState.OPEN) :
    handleMessage env st clients ws frame now true =
      ({ doc := env.merge st.doc inc,
         file := some (env.stringifyDoc (env.merge st.doc inc)) },
       Ev.sent ws.id (OutMsg.debug_echo frame.text.length)
         :: Ev.wrote (env.stringifyDoc (env.merge st.doc inc))
         :: Ev.sent ws.id (OutMsg.persisted now (env.qText (env.merge st.doc inc)))
         :: (openClients clients).map
              (fun c => Ev.sent c.id (OutMsg.full (env.save (env.merge st.doc inc)))))
    ∧ ws ∈ openClients clients := by
  constructor
  · simp only [handleMessage, hparse, hws, if_true]
    rw [htype, hpay]
    rw [if_neg (by decide : ¬ ((some "full" : Option String) = some "hello"))]
    rw [if_neg (by decide : ¬ ((some "full" : Option String) ≠ some "full"))]
    rw [Option.some_bind, hload]
    simp [persistJson, broadcastSend_all_ok _ clients hall]
  · simp only [openClients, List.mem_filter, beq_iff_eq]
    exact ⟨hmem, by simp [hopen]⟩

/-- C1 witness: a concrete run with one open connection (the sender). -/
theorem full_merge_persist_ack_broadcast_witness :
    handleMessage testEnv { doc := 3, file := none } [testConn] testConn
        fullFrame "T" true =
      ({ doc := testEnv.merge 3 7,
         file := some (testEnv.stringifyDoc (testEnv.merge 3 7)) },
       Ev.sent testConn.id (OutMsg.debug_echo fullFrame.text.length)
         :: Ev.wrote (testEnv.stringifyDoc (testEnv.merge 3 7))
         :: Ev.sent testConn.id (OutMsg.persisted "T" (testEnv.qText (testEnv.merge 3 7)))
         :: (openClients [testConn]).map
              (fun c => Ev.sent c.id (OutMsg.full (testEnv.save (testEnv.merge 3 7)))))
    ∧ testConn ∈ openClients [testConn] :=
  full_merge_persist_ack_broadcast testEnv { doc := 3, file := none }
    [testConn] testConn fullFrame "T"
    ⟨some "full", some "7"⟩ "7" 7
    rfl rfl rfl (by decide) rfl
    (by intro c hc _; simp at hc; rw [hc]; rfl) (by simp) rfl


/-- C2: for every incoming `full` message whose payload fails to deserialize,
the server's document and snapshot file are left unchanged, no merge or
persist occurs, and neither a `persisted` acknowledgment nor any `full`
broadcast is sent — the only effect is the unconditional `debug_echo`. -/
theorem full_deserialize_failure_atomic {Doc : Type} (env : Env Doc)
    (st : SState Doc) (clients : List Conn) (ws : Conn) (frame : Frame)
    (now : String) (writeOk : Bool) (msg : WireIn)
    (hparse : frame.parse = some msg) (htype : msg.type = some "full")
    (hload : msg.payload.bind env.load = none) :
    handleMessage env st clients ws frame now writeOk =
      (st, if ws.sendOk then [Ev.sent ws.id (OutMsg.debug_echo frame.text.length)]
           else [Ev.sendFailed ws.id]) := by
  simp only [handleMessage, hparse]
  rw [htype]
  rw [if_neg (by decide : ¬ ((some "full" : Option String) = some "hello"))]
  rw [if_neg (by decide : ¬ ((some "full" : Option String) ≠ some "full"))]
  rw [hload]

/-- C2 witness: a concrete `full` frame whose payload does not deserialize. -/
theorem full_deserialize_failure_atomic_witness :
    handleMessage testEnv { doc := 3, file := none } [testConn] testConn
        badFullFrame "T" true =
      ({ doc := 3, file := none },
       if testConn.sendOk then
         [Ev.sent testConn.id (OutMsg.debug_echo badFullFrame.text.length)]
       else [Ev.sendFailed testConn.id]) :=
  full_deserialize_failure_atomic testEnv { doc := 3, file := none }
    [testConn] testConn badFullFrame "T" true ⟨some "full", some "nope"⟩
    rfl rfl (by decide)

/-- C3 counterexample: a frame that is not well-formed JSON still gets a reply
— the server sends a `debug_echo` to the sender before parsing, so "no reply
of any kind" is false at this concrete input. -/
theorem malformed_json_no_reply_cex :
    (handleMessage testEnv { doc := 3, file := none } [testConn] testConn
        badFrame "T" true).2 =
      [Ev.sent testConn.id (OutMsg.debug_echo 7)]
    ∧ Ev.sent testConn.id (OutMsg.debug_echo 7) ∈
        (handleMessage testEnv { doc := 3, file := none } [testConn] testConn
          badFrame "T" true).2 := by
  decide

/-- C3 amended: for every received frame that is not well-formed JSON, the
server logs and discards it with no side effect on the document, the snapshot
file, or any other connection, and sends the sender no reply beyond the
unconditional `debug_echo` that precedes parsing of every frame. -/
theorem malformed_json_echo_only {Doc : Type} (env : Env Doc)
    (st : SState Doc) (clients : List Conn) (ws : Conn) (frame : Frame)
    (now : String) (writeOk : Bool)
    (hparse : frame.parse = none) :
    handleMessage env st clients ws frame now writeOk =
      (st, if ws.sendOk then [Ev.sent ws.id (OutMsg.debug_echo frame.text.length)]
           else [Ev.sendFailed ws.id]) := by
  simp only [handleMessage, hparse]

/-- C3 amended witness: the concrete malformed frame. -/
theorem malformed_json_echo_only_witness :
    handleMessage testEnv { doc := 3, file := none } [testConn] testConn
        badFrame "T" true =
      ({ doc := 3, file := none },
       if testConn.sendOk then
         [Ev.sent testConn.id (OutMsg.debug_echo badFrame.text.length)]
       else [Ev.sendFailed testConn.id]) :=
  malformed_json_echo_only testEnv { doc := 3, file := none }
    [testConn] testConn badFrame "T" true rfl

/-- C5: for every received `hello` message, the server replies to that
connection with a fresh `full` message whose payload is the serialization of
the server's current document, and neither the document nor the snapshot file
is mutated by handling `hello`. -/
theorem hello_reply_current_full {Doc : Type} (env : Env Doc)
    (st : SState Doc) (clients : List Conn) (ws : Conn) (frame : Frame)
    (now : String) (writeOk : Bool) (msg : WireIn)
    (hparse : frame.parse = some msg) (htype : msg.type = some "hello")
    (hws : ws.sendOk = true) :
    handleMessage env st clients ws frame now writeOk =
      (st, [Ev.sent ws.id (OutMsg.debug_echo frame.text.length),
            Ev.sent ws.id (OutMsg.full (env.save st.doc))]) := by
  simp only [handleMessage, hparse, hws]
  rw [htype, if_pos rfl]
  simp

/-- C5 witness: a concrete `hello` frame. -/
theorem hello_reply_current_full_witness :
    handleMessage testEnv { doc := 3, file := none } [testConn] testConn
        helloFrame "T" true =
      ({ doc := 3, file := none },
       [Ev.sent testConn.id (OutMsg.debug_echo helloFrame.text.length),
        Ev.sent testConn.id (OutMsg.full (testEnv.save 3))]) :=
  hello_reply_current_full testEnv { doc := 3, file := none }
    [testConn] testConn helloFrame "T" true ⟨some "hello", none⟩ rfl rfl rfl

/-- Closed form of the handler on the successful-deserialize `full` path, for
arbitrary send/write outcomes. -/
theorem handleMessage_full_eq {Doc : Type} (env : Env Doc) (st : SState Doc)
    (clients : List Conn) (ws : Conn) (frame : Frame) (now : String)
    (writeOk : Bool) (msg : WireIn) (p : String) (inc : Doc)
    (hparse : frame.parse = some msg) (htype : msg.type = some "full")
    (hpay : msg.payload = some p) (hload : env.load p = some inc) :
    handleMessage env st clients ws frame now writeOk =
      ({ doc := env.merge st.doc inc,
         file := (persistJson env (env.merge st.doc inc) st.file writeOk).1 },
       (if ws.sendOk then [Ev.sent ws.id (OutMsg.debug_echo frame.text.length)]
        else [Ev.sendFailed ws.id])
         ++ (persistJson env (env.merge st.doc inc) st.file writeOk).2
         ++ (if ws.sendOk then
               [Ev.sent ws.id (OutMsg.persisted now
                  (env.qText (env.merge st.doc inc)))]
             else [Ev.sendFailed ws.id])
         ++ broadcastSend (OutMsg.full (env.save (env.merge st.doc inc))) clients) := by
  simp only [handleMessage, hparse]
  rw [htype, hpay]
  rw [if_neg (by decide : ¬ ((some "full" : Option String) = some "hello"))]
  rw [if_neg (by decide : ¬ ((some "full" : Option String) ≠ some "full"))]
  rw [Option.some_bind, hload]

/-- C4 counterexample: two open connections, the first one's send throws; the
second open connection receives nothing, so a send failure to one connection
does prevent delivery to the remaining open connections. -/
theorem broadcast_failure_cex :
    broadcastSend (OutMsg.full "s")
        [{ id := 1, readyState := RState.OPEN, sendOk := false },
         { id := 2, readyState := RState.OPEN, sendOk := true }] = []
    ∧ Ev.sent 2 (OutMsg.full "s") ∉
        broadcastSend (OutMsg.full "s")
          [{ id := 1, readyState := RState.OPEN, sendOk := false },
           { id := 2, readyState := RState.OPEN, sendOk := true }] := by
  decide

/-- C4 amended: broadcast sends the message to every connection currently
marked open and skips closed ones, and never raises to its caller (it always
returns an event list); but the `try`/`catch` sits outside the iteration, so
while no send has failed delivery proceeds in order, and a send failure on an
open connection aborts delivery to every connection after it. -/
theorem broadcast_best_effort_amended (m : OutMsg) :
    (∀ clients : List Conn,
      (∀ c ∈ clients, c.readyState = RState.OPEN → c.sendOk = true) →
      broadcastSend m clients =
        (openClients clients).map (fun c => Ev.sent c.id m))
    ∧ (∀ (c : Conn) (post pre : List Conn),
        c.readyState = RState.OPEN → c.sendOk = false →
        (∀ x ∈ pre, x.readyState = RState.OPEN → x.sendOk = true) →
        broadcastSend m (pre ++ c :: post) =
          (openClients pre).map (fun x => Ev.sent x.id m)) :=
  ⟨broadcastSend_all_ok m,
   fun c post pre hc hs hpre => broadcastSend_abort m c post hc hs pre hpre⟩

/-- C4 amended witness: delivery to all open connections when no send fails,
and the abort behavior past a failing open connection. -/
theorem broadcast_best_effort_amended_witness :
    broadcastSend (OutMsg.full "s") [testConn] = [Ev.sent 1 (OutMsg.full "s")]
    ∧ broadcastSend (OutMsg.full "s")
        ([testConn] ++
          { id := 2, readyState := RState.OPEN, sendOk := false } ::
            [{ id := 3, readyState := RState.OPEN, sendOk := true }]) =
        [Ev.sent 1 (OutMsg.full "s")] := by
  constructor
  · have h := (broadcast_best_effort_amended (OutMsg.full "s")).1 [testConn]
      (by intro c hc _; simp at hc; rw [hc]; rfl)
    rw [h]; decide
  · have h := (broadcast_best_effort_amended (OutMsg.full "s")).2
      { id := 2, readyState := RState.OPEN, sendOk := false }
      [{ id := 3, readyState := RState.OPEN, sendOk := true }] [testConn]
      rfl rfl (by intro c hc _; simp at hc; rw [hc]; rfl)
    rw [h]; decide

/-- C6: when persisting the document to disk fails, the failure is recovered
locally: the in-memory document still becomes the merge result (identical to
what a successful persist run produces), the snapshot file is unchanged, and
the `persisted` acknowledgment and the `full` broadcast still execute; the
handler attempts a persist on every merge, so the next merge retries it. -/
theorem persist_failure_nonfatal {Doc : Type} (env : Env Doc)
    (st : SState Doc) (clients : List Conn) (ws : Conn) (frame : Frame)
    (now : String) (msg : WireIn) (p : String) (inc : Doc)
    (hparse : frame.parse = some msg) (htype : msg.type = some "full")
    (hpay : msg.payload = some p) (hload : env.load p = some inc)
    (hws : ws.sendOk = true)
    (hall : ∀ c ∈ clients, c.readyState = RState.OPEN → c.sendOk = true) :
    handleMessage env st clients ws frame now false =
      ({ doc := env.merge st.doc inc, file := st.file },
       Ev.sent ws.id (OutMsg.debug_echo frame.text.length)
         :: Ev.writeFailed
         :: Ev.sent ws.id (OutMsg.persisted now (env.qText (env.merge st.doc inc)))
         :: (openClients clients).map
              (fun c => Ev.sent c.id (OutMsg.full (env.save (env.merge st.doc inc)))))
    ∧ (handleMessage env st clients ws frame now false).1.doc =
        (handleMessage env st clients ws frame now true).1.doc := by
  have h0 := handleMessage_full_eq env st clients ws frame now false msg p inc
    hparse htype hpay hload
  have h1 := handleMessage_full_eq env st clients ws frame now true msg p inc
    hparse htype hpay hload
  constructor
  · rw [h0]
    simp [persistJson, hws, broadcastSend_all_ok _ clients hall]
  · rw [h0, h1]

/-- C6 witness: a concrete merge whose persist write fails. -/
theorem persist_failure_nonfatal_witness :
    (handleMessage testEnv { doc := 3, file := none } [testConn] testConn
        fullFrame "T" false =
      ({ doc := testEnv.merge 3 7, file := none },
       Ev.sent testConn.id (OutMsg.debug_echo fullFrame.text.length)
         :: Ev.writeFailed
         :: Ev.sent testConn.id (OutMsg.persisted "T" (testEnv.qText (testEnv.merge 3 7)))
         :: (openClients [testConn]).map
              (fun c => Ev.sent c.id (OutMsg.full (testEnv.save (testEnv.merge 3 7))))))
    ∧ (handleMessage testEnv { doc := 3, file := none } [testConn] testConn
        fullFrame "T" false).1.doc =
      (handleMessage testEnv { doc := 3, file := none } [testConn] testConn
        fullFrame "T" true).1.doc :=
  persist_failure_nonfatal testEnv { doc := 3, file := none } [testConn]
    testConn fullFrame "T" ⟨some "full", some "7"⟩ "7" 7 rfl rfl rfl
    (by decide) rfl (by intro c hc _; simp at hc; rw [hc]; rfl)

/-- C7: at startup, if the snapshot file is absent or its content fails to
parse, `loadInitial` falls back to the fixed empty-shape document and
immediately attempts to persist it; when the write succeeds the snapshot file
afterwards holds the serialization of that document, and a parse failure is
never fatal (`loadInitial` always returns a document). -/
theorem loadInitial_fallback {Doc : Type} (env : Env Doc)
    (file : Option String) (writeOk : Bool)
    (h : file.bind env.parseJson = none) :
    loadInitial env file writeOk =
      ({ doc := env.fromSeed emptySeed,
         file := if writeOk then
             some (env.stringifyDoc (env.fromSeed emptySeed))
           else file },
       if writeOk then [Ev.wrote (env.stringifyDoc (env.fromSeed emptySeed))]
       else [Ev.writeFailed]) := by
  cases file with
  | none =>
    cases writeOk <;> simp [loadInitial, persistJson]
  | some content =>
    have hp : env.parseJson content = none := by simpa using h
    cases writeOk <;> simp [loadInitial, hp, persistJson]

/-- C7 witness: an unparseable snapshot file with a succeeding write. -/
theorem loadInitial_fallback_witness :
    loadInitial testEnv (some "bad") true =
      ({ doc := testEnv.fromSeed emptySeed,
         file := if true then
             some (testEnv.stringifyDoc (testEnv.fromSeed emptySeed))
           else some "bad" },
       if true then [Ev.wrote (testEnv.stringifyDoc (testEnv.fromSeed emptySeed))]
       else [Ev.writeFailed]) :=
  loadInitial_fallback testEnv (some "bad") true rfl

/-- C8 counterexample: the `persisted` acknowledgment of a concrete merge
carries payload keys `at` and `questionText` — there is no `summary` field,
so the claimed shape `\x7bat: timestamp, summary: string\x7d` is false on the
wire. -/
theorem persisted_ack_summary_cex :
    ((handleMessage testEnv { doc := 3, file := none } [testConn] testConn
        fullFrame "T" true).2)[2]? =
      some (Ev.sent 1 (OutMsg.persisted "T" "7"))
    ∧ msgPayloadKeys (OutMsg.persisted "T" "7") = ["at", "questionText"]
    ∧ "summary" ∉ msgPayloadKeys (OutMsg.persisted "T" "7") := by
  decide

/-- C8 amended: every `persisted` acknowledgment the handler emits goes to the
originating connection and carries a payload object whose keys are exactly
`at` (the timestamp) and `questionText` (the application-defined string
summary of the post-merge document, the source's `qText` projection). -/
theorem persisted_ack_shape {Doc : Type} (env : Env Doc) (st : SState Doc)
    (clients : List Conn) (ws : Conn) (frame : Frame) (now : String)
    (writeOk : Bool) (cid : Nat) (a q : String)
    (hmem : Ev.sent cid (OutMsg.persisted a q) ∈
      (handleMessage env st clients ws frame now writeOk).2) :
    cid = ws.id ∧ a = now ∧
    q = env.qText (handleMessage env st clients ws frame now writeOk).1.doc ∧
    msgPayloadKeys (OutMsg.persisted a q) = ["at", "questionText"] := by
  have hkeys : msgPayloadKeys (OutMsg.persisted a q) = ["at", "questionText"] := rfl
  cases hp : frame.parse with
  | none =>
    simp only [handleMessage, hp] at hmem
    cases hws : ws.sendOk <;> simp [hws] at hmem
  | some msg =>
    by_cases ht : msg.type = some "hello"
    · simp only [handleMessage, hp] at hmem
      rw [if_pos ht] at hmem
      cases hws : ws.sendOk <;> simp [hws] at hmem
    · by_cases hf : msg.type = some "full"
      · cases hpl : msg.payload.bind env.load with
        | none =>
          simp only [handleMessage, hp] at hmem
          rw [if_neg ht, if_neg (not_not_intro hf)] at hmem
          rw [hpl] at hmem
          simp only [] at hmem
          cases hws : ws.sendOk <;> simp [hws] at hmem
        | some inc =>
          obtain ⟨p, hpay⟩ : ∃ p, msg.payload = some p := by
            cases hmp : msg.payload with
            | none => rw [hmp] at hpl; simp at hpl
            | some p => exact ⟨p, rfl⟩
          have hload : env.load p = some inc := by
            rw [hpay] at hpl; simpa using hpl
          have heq := handleMessage_full_eq env st clients ws frame now writeOk
            msg p inc hp hf hpay hload
          rw [heq] at hmem ⊢
          rcases List.mem_append.mp hmem with hin | h4
          · rcases List.mem_append.mp hin with hin2 | h3
            · rcases List.mem_append.mp hin2 with h1 | h2
              · cases hws : ws.sendOk <;> simp [hws] at h1
              · cases hw : writeOk <;> simp [persistJson, hw] at h2
            · cases hws : ws.sendOk
              · simp [hws] at h3
              · simp [hws] at h3
                obtain ⟨h31, h32, h33⟩ := h3
                exact ⟨h31, h32, h33, hkeys⟩
          · obtain ⟨cid', hceq⟩ := broadcastSend_ev h4
            simp at hceq
      · simp only [handleMessage, hp] at hmem
        rw [if_neg ht, if_pos hf] at hmem
        cases hws : ws.sendOk <;> simp [hws] at hmem

/-- C8 amended witness: the acknowledgment of a concrete merge. -/
theorem persisted_ack_shape_witness :
    1 = testConn.id ∧ "T" = "T" ∧
    "7" = testEnv.qText (handleMessage testEnv { doc := 3, file := none }
        [testConn] testConn fullFrame "T" true).1.doc ∧
    msgPayloadKeys (OutMsg.persisted "T" "7") = ["at", "questionText"] :=
  persisted_ack_shape testEnv { doc := 3, file := none } [testConn] testConn
    fullFrame "T" true 1 "T" "7" (by decide)

/-- C9 counterexample: the request path `/client.html` is not `/`, yet the
server answers it with the 200 page rather than a not-found response, so
"any other path returns a not-found response" is false at this input. -/
theorem http_not_found_cex :
    (handleHttp none { method := "GET", url := "/client.html" }).status = 200
    ∧ pathnameOf "/client.html" ≠ "/"
    ∧ (handleHttp none { method := "GET", url := "/client.html" }).status ≠ 404 := by
  decide

/-- C9 amended: a request whose pathname (before any query string) is `/` or
`/client.html` — for any method — gets the fixed page with status 200 and the
no-cache headers; a request for any other pathname gets the not-found
response (404, `Cache-Control: no-store`, body `Not found`). -/
theorem http_routing_amended (clientHtml : Option String) (req : HttpReq) :
    (pathnameOf req.url = "/" ∨ pathnameOf req.url = "/client.html" →
      (handleHttp clientHtml req).status = 200 ∧
      noCacheHeaders ⊆ (handleHttp clientHtml req).headers)
    ∧ (pathnameOf req.url ≠ "/" → pathnameOf req.url ≠ "/client.html" →
      handleHttp clientHtml req =
        { status := 404, headers := [("Cache-Control", "no-store")],
          body := "Not found" }) := by
  constructor
  · intro h
    simp only [handleHttp]
    rw [if_pos h]
    cases clientHtml with
    | none => exact ⟨rfl, List.Subset.refl _⟩
    | some html => exact ⟨rfl, List.subset_append_left _ _⟩
  · intro h1 h2
    simp only [handleHttp]
    rw [if_neg (not_or.mpr ⟨h1, h2⟩)]

/-- C9 amended witness: the root path gets the page, an unknown path gets the
not-found response. -/
theorem http_routing_amended_witness :
    ((handleHttp none { method := "GET", url := "/" }).status = 200 ∧
      noCacheHeaders ⊆ (handleHttp none { method := "GET", url := "/" }).headers)
    ∧ handleHttp none { method := "GET", url := "/nope" } =
        { status := 404, headers := [("Cache-Control", "no-store")],
          body := "Not found" } :=
  ⟨(http_routing_amended none { method := "GET", url := "/" }).1
      (Or.inl (by decide)),
   (http_routing_amended none { method := "GET", url := "/nope" }).2
      (by decide) (by decide)⟩

/-- Whether an event is a successful `debug_echo` send. -/
def isEchoEv : Ev → Bool
  | Ev.sent _ (OutMsg.debug_echo _) => true
  | _ => false

/-- The broadcast of a `full` message contains no `debug_echo` event. -/
theorem broadcastSend_no_echo (s : String) (clients : List Conn) :
    (broadcastSend (OutMsg.full s) clients).filter isEchoEv = [] := by
  induction clients with
  | nil => rfl
  | cons c rest ih =>
    by_cases hc : c.readyState = RState.OPEN
    · by_cases hs : c.sendOk = true
      · rw [broadcastSend, if_pos hc, if_pos hs, List.filter_cons]
        simp [isEchoEv, ih]
      · rw [broadcastSend, if_pos hc, if_neg hs]; rfl
    · rw [broadcastSend, if_neg hc]; exact ih

/-- C10: for every frame received on a connection (well-formed or not, of any
type), the first event of the handler run is a `debug_echo` to the sender
carrying the length of the frame's decoded text, and it is the only
`debug_echo` event of the run. -/
theorem debug_echo_per_frame {Doc : Type} (env : Env Doc) (st : SState Doc)
    (clients : List Conn) (ws : Conn) (frame : Frame) (now : String)
    (writeOk : Bool) (hws : ws.sendOk = true) :
    ((handleMessage env st clients ws frame now writeOk).2.head? =
      some (Ev.sent ws.id (OutMsg.debug_echo frame.text.length)))
    ∧ (handleMessage env st clients ws frame now writeOk).2.filter isEchoEv =
        [Ev.sent ws.id (OutMsg.debug_echo frame.text.length)] := by
  cases hp : frame.parse with
  | none =>
    simp only [handleMessage, hp]
    constructor <;> simp [hws, isEchoEv]
  | some msg =>
    by_cases ht : msg.type = some "hello"
    · simp only [handleMessage, hp]
      rw [if_pos ht]
      constructor <;> simp [hws, isEchoEv]
    · by_cases hf : msg.type = some "full"
      · cases hpl : msg.payload.bind env.load with
        | none =>
          simp only [handleMessage, hp]
          rw [if_neg ht, if_neg (not_not_intro hf), hpl]
          constructor <;> simp [hws, isEchoEv]
        | some inc =>
          obtain ⟨p, hpay⟩ : ∃ p, msg.payload = some p := by
            cases hmp : msg.payload with
            | none => rw [hmp] at hpl; simp at hpl
            | some p => exact ⟨p, rfl⟩
          have hload : env.load p = some inc := by
            rw [hpay] at hpl; simpa using hpl
          rw [handleMessage_full_eq env st clients ws frame now writeOk
            msg p inc hp hf hpay hload]
          constructor
          · simp [hws]
          · cases hw : writeOk <;>
              simp [hws, hw, persistJson, List.filter_append, isEchoEv,
                broadcastSend_no_echo]
      · simp only [handleMessage, hp]
        rw [if_neg ht, if_pos hf]
        constructor <;> simp [hws, isEchoEv]

/-- C10 witness: a concrete frame run. -/
theorem debug_echo_per_frame_witness :
    ((handleMessage testEnv { doc := 3, file := none } [testConn] testConn
        fullFrame "T" true).2.head? =
      some (Ev.sent testConn.id (OutMsg.debug_echo fullFrame.text.length)))
    ∧ (handleMessage testEnv { doc := 3, file := none } [testConn] testConn
        fullFrame "T" true).2.filter isEchoEv =
        [Ev.sent testConn.id (OutMsg.debug_echo fullFrame.text.length)] :=
  debug_echo_per_frame testEnv { doc := 3, file := none } [testConn] testConn
    fullFrame "T" true rfl

end AutomergeRelay
